import Mathlib

/-!
Shallow embedding of the Prompt-Master relay (`functions/api/[[proxy]].ts`)
and the client project export/import logic (`src/app.component.ts`).

The external generative-model provider is modelled as an oracle
(`Provider`): each outbound call is a function field, and the video job's
successive status reports are a stream `Nat → Operation`.  The relay
handlers are pure functions of the request, the oracle and a fuel bound
for the (potentially nonterminating) video polling loop; `none` models a
handler invocation that never returns.  Thrown JavaScript errors are
modelled with `Except String`; the trace of outbound provider calls and
sleeps is returned alongside the result so that claims about "no provider
call attempted" and polling counts can be stated.
-/

namespace PromptMaster

/-- One entry of the structured completion result:
`{ language: string, prompt: string }`. -/
structure MasterPrompt where
  language : String
  prompt : String
  deriving DecidableEq

/-- The video long-running operation as observed by the relay: its `done`
flag and the (flattened) optional asset link
`operation.response?.generatedVideos?.[0]?.video?.uri`. -/
structure Operation where
  done : Bool
  uri : Option String
  deriving DecidableEq

/-- Preview pathway tag: the non-null values of the `preview.type` field. -/
inductive PreviewKind
  | text
  | image
  | video
  deriving DecidableEq

/-- Shape `{ type: 'text'|'image'|'video'|null, content: string }`. -/
structure Preview where
  type : Option PreviewKind
  content : String
  deriving DecidableEq

/-- Successful body of `handleGenerate`: `{ masterPrompts, preview }`. -/
structure GenResponse where
  masterPrompts : List MasterPrompt
  preview : Preview
  deriving DecidableEq

/-- An uploaded inline file `{ data, mimeType, name }` (the relay only
reads `data` and `mimeType`). -/
structure UploadedFile where
  data : String
  mimeType : String
  name : String
  deriving DecidableEq

/-- The `generate` payload destructured at the top of `handleGenerate`. -/
structure GenRequest where
  context : String
  objective : String
  role : String
  expectations : String
  systemInstruction : String
  promptBody : String
  mediaInstruction : String
  aiPlatform : String
  outputType : String
  file : Option UploadedFile
  previewLanguage : String
  masterPromptLanguages : List String
  temperature : Float
  topP : Float
  aspectRatio : String

/-- A content part sent to the text-completion call: either a text part or
an inline-data part. -/
inductive ContentPart
  | text (s : String)
  | inlineData (mimeType : String) (data : String)
  deriving DecidableEq

/-- The analysis result shape `{score, analysis:{...}, suggestions}`
returned verbatim by `handleAnalyze`. -/
structure AnalysisResult where
  score : Float
  analysisContext : String
  analysisObjective : String
  analysisRole : String
  analysisExpectations : String
  suggestions : String

/-- The blob fetched from the video asset link: its MIME `type` and its
bytes already re-encoded as base64 (the `arrayBufferToBase64` step). -/
structure VideoBlob where
  type : String
  base64 : String
  deriving DecidableEq

/-- Observable outbound effects of one relay invocation: the provider
calls, and the fixed-interval sleeps of the video polling loop. -/
inductive Effect
  | callStructured
  | callText
  | callImage
  | callVideoSubmit
  | callVideoPoll
  | callAssetFetch
  | callAnalyze
  | sleep (ms : Nat)
  deriving DecidableEq

/-- Oracle for the generative-model provider.  `structuredCompletion`
returns `Except.error e` for a thrown transport/parse failure and
`Except.ok r` for a parsed JSON body whose `prompts` field is `r`
(`none` models a missing `prompts` field).  `videoReports n` is the
result of the `(n+1)`-st `getVideosOperation` call. -/
structure Provider where
  structuredCompletion : String → Except String (Option (List MasterPrompt))
  textCompletion : List ContentPart → Float → Float → String
  generateImagesCall : String → String → String
  generateVideosCall : String → Option (Option String × String) → Operation
  videoReports : Nat → Operation
  fetchAsset : String → VideoBlob
  analyzeCompletion : String → Except String AnalysisResult

/-- JavaScript `String.prototype.toLowerCase`, modelled characterwise
(list-based so that it reduces definitionally, unlike `String.toLower`,
which is extensionally the same map). -/
def lowerString (s : String) : String :=
  String.mk (s.data.map Char.toLower)

/-- Splitting a character list on a separator character; the result
always has one more component than there are separators. -/
def splitOnCharList (sep : Char) : List Char → List (List Char)
  | [] => [[]]
  | c :: cs =>
    match splitOnCharList sep cs with
    | [] => [[]]
    | h :: t => if c = sep then [] :: h :: t else (c :: h) :: t

/-- JavaScript `data.split(',')` (single-character separator). -/
def splitOnComma (s : String) : List String :=
  (splitOnCharList ',' s.data).map String.mk

/-- Constant `IMAGE_OUTPUT_TYPES` from the source. -/
def IMAGE_OUTPUT_TYPES : List String := ["Image", "Ảnh", "Hình ảnh"]

/-- Constant `VIDEO_OUTPUT_TYPES` from the source. -/
def VIDEO_OUTPUT_TYPES : List String := ["Video", "Phim ngắn"]

/-- The three-way output-type classification implicit in the branch
structure of `handleGenerate`: image-set membership first, then video-set
membership, anything else is text. -/
def classifyOutputType (outputType : String) : PreviewKind :=
  if IMAGE_OUTPUT_TYPES.contains outputType then PreviewKind.image
  else if VIDEO_OUTPUT_TYPES.contains outputType then PreviewKind.video
  else PreviewKind.text

/-- The meta-prompt template of `handleGenerate` (string content of the
template literal; `${mediaInstruction || 'Không có'}` is the JavaScript
falsy-or on the string). -/
def buildMetaPrompt (d : GenRequest) : String :=
  let languagesString := String.intercalate ", " d.masterPromptLanguages
  let mediaInstr := if d.mediaInstruction = "" then "Không có" else d.mediaInstruction
  "\n      You are a world-class prompt engineering expert AI. Your task is to create a \"Master Prompt\" based on the user's structured input using the C.O.R.E framework.\n" ++
  "      The goal is to synthesize the provided components into a powerful, clear, and effective prompt tailored for the specified AI platform and desired output format.\n\n" ++
  "      **User's Input Components (C.O.R.E Framework):**\n" ++
  "      1.  **Context (Bối cảnh):** " ++ d.context ++ "\n" ++
  "      2.  **Objective (Mục tiêu):** " ++ d.objective ++ "\n" ++
  "      3.  **Role (Vai trò AI cần đảm nhận):** " ++ d.role ++ "\n" ++
  "      4.  **Expectations (Kỳ vọng về kết quả):** " ++ d.expectations ++ "\n\n" ++
  "      **Additional Instructions:**\n" ++
  "      *   **System Instruction (Overall AI Persona):** " ++ d.systemInstruction ++ "\n" ++
  "      *   **Main Prompt Body (The Core Task):** " ++ d.promptBody ++ "\n" ++
  "      *   **Media Instructions (If any):** " ++ mediaInstr ++ "\n" ++
  "      *   **Target AI Platform:** " ++ d.aiPlatform ++ "\n" ++
  "      *   **Output Format:** " ++ d.outputType ++ "\n\n" ++
  "      **Your Instructions:**\n" ++
  "      1.  Analyze all components to understand the user's ultimate goal. Use the **Objective** to understand the *purpose* and the **Output Format** to determine the structure and style of the final product.\n" ++
  "      2.  Combine and refine the components into a single, cohesive \"Master Prompt\".\n" ++
  "      3.  The Master Prompt should start with the Role, then integrate Context, Objective, and Expectations clearly.\n" ++
  "      4.  Ensure the prompt uses advanced techniques to guide the AI model effectively.\n" ++
  "      5.  Provide the final Master Prompt in the following languages: " ++ languagesString ++ ".\n" ++
  "      6.  Your response MUST be a valid JSON object. Do not include any text, comments, or markdown formatting (like ```json) before or after the JSON object.\n    "

/-- Selection `masterPrompts.find(p => p.language.toLowerCase() === 'english')?.prompt
|| masterPrompts[0].prompt`.  The JavaScript `||` falls through to the
first entry when the found prompt is the empty string (falsy). -/
def basePromptForPreview (masterPrompts : List MasterPrompt) : String :=
  let headPrompt := (masterPrompts.headD ⟨"", ""⟩).prompt
  match masterPrompts.find? (fun p => lowerString p.language = "english") with
  | some p => if p.prompt = "" then headPrompt else p.prompt
  | none => headPrompt

/-- Construction of `previewPromptParts`: a single text part holding the base prompt,
with the inline file unshifted in front when `file` is present and
`file.data.split(',')[1]` is truthy (defined and non-empty). -/
def previewPromptParts (base : String) (file : Option UploadedFile) : List ContentPart :=
  match file with
  | none => [ContentPart.text base]
  | some f =>
    match (splitOnComma f.data)[1]? with
    | none => [ContentPart.text base]
    | some d =>
      if d = "" then [ContentPart.text base]
      else [ContentPart.inlineData f.mimeType d, ContentPart.text base]

/-- Appends the preview-language instruction to the last part when that
last part is a text part (`'text' in parts[lastPartIndex]`). -/
def appendLanguageInstruction (parts : List ContentPart) (previewLanguage : String) : List ContentPart :=
  match parts.getLast? with
  | some (ContentPart.text t) =>
    parts.dropLast ++
      [ContentPart.text (t ++ "\n\n--- IMPORTANT: Please provide your entire response in " ++ previewLanguage ++ ". ---")]
  | some (ContentPart.inlineData _ _) => parts
  | none => parts

/-- The optional image seed for `generateVideos`: present when `file` is
supplied and `file.mimeType.startsWith('image/')`; its bytes are
`file.data.split(',')[1]` (possibly `undefined`, hence `Option`). -/
def videoImageSeed (file : Option UploadedFile) : Option (Option String × String) :=
  match file with
  | none => none
  | some f =>
    if f.mimeType.startsWith "image/" then some ((splitOnComma f.data)[1]?, f.mimeType)
    else none

/-- The `while (!operation.done)` polling loop.  `fuel` bounds the number
of iterations the model may take; `none` means the loop does not
terminate within `fuel` polls.  Each iteration sleeps 5000 ms and then
issues one `getVideosOperation` call, whose result is `reports 0` for the
first poll (the stream is shifted on recursion).  Returns the event trace
and the final (done) operation. -/
def videoPollLoop (fuel : Nat) (op : Operation) (reports : Nat → Operation) :
    Option (List Effect × Operation) :=
  if op.done then some ([], op)
  else
    match fuel with
    | 0 => none
    | f + 1 =>
      match videoPollLoop f (reports 0) (fun k => reports (k + 1)) with
      | none => none
      | some (evs, final) => some (Effect.sleep 5000 :: Effect.callVideoPoll :: evs, final)

/-- Handler `handleGenerate`, as a function of the payload, the server api key,
the provider oracle and the polling fuel.  Returns `none` when the video
polling loop never terminates; otherwise the thrown error or the
successful `{masterPrompts, preview}` body, paired with the trace of
outbound effects.  The source's `if (downloadLink)` is a JavaScript
truthiness test, so both a missing asset URI and an empty-string one
throw the generation error. -/
def handleGenerate (data : GenRequest) (apiKey : String) (pv : Provider) (fuel : Nat) :
    Option (Except String GenResponse × List Effect) :=
  match pv.structuredCompletion (buildMetaPrompt data) with
  | Except.error e => some (Except.error e, [Effect.callStructured])
  | Except.ok none => some (Except.error "AI did not return any prompts.", [Effect.callStructured])
  | Except.ok (some []) => some (Except.error "AI did not return any prompts.", [Effect.callStructured])
  | Except.ok (some masterPrompts) =>
    let base := basePromptForPreview masterPrompts
    let parts := previewPromptParts base data.file
    if IMAGE_OUTPUT_TYPES.contains data.outputType then
      let base64ImageBytes := pv.generateImagesCall base data.aspectRatio
      some (Except.ok ⟨masterPrompts, ⟨some PreviewKind.image, "data:image/png;base64," ++ base64ImageBytes⟩⟩,
            [Effect.callStructured, Effect.callImage])
    else if VIDEO_OUTPUT_TYPES.contains data.outputType then
      let initOp := pv.generateVideosCall base (videoImageSeed data.file)
      match videoPollLoop fuel initOp pv.videoReports with
      | none => none
      | some (evs, finalOp) =>
        match finalOp.uri with
        | some downloadLink =>
          if downloadLink = "" then
            some (Except.error "Could not generate video.",
                  [Effect.callStructured, Effect.callVideoSubmit] ++ evs)
          else
            let blob := pv.fetchAsset (downloadLink ++ "&key=" ++ apiKey)
            some (Except.ok ⟨masterPrompts, ⟨some PreviewKind.video, "data:" ++ blob.type ++ ";base64," ++ blob.base64⟩⟩,
                  [Effect.callStructured, Effect.callVideoSubmit] ++ evs ++ [Effect.callAssetFetch])
        | none =>
          some (Except.error "Could not generate video.",
                [Effect.callStructured, Effect.callVideoSubmit] ++ evs)
    else
      let finalParts := appendLanguageInstruction parts data.previewLanguage
      let text := pv.textCompletion finalParts data.temperature data.topP
      some (Except.ok ⟨masterPrompts, ⟨some PreviewKind.text, text⟩⟩,
            [Effect.callStructured, Effect.callText])

/-- The meta-prompt template of `handleAnalyze`. -/
def buildAnalyzeMetaPrompt (promptToAnalyze : String) : String :=
  "\n      You are a world-class prompt engineering expert AI. Your task is to analyze and evaluate the quality of a given prompt based on the C.O.R.E framework (Context, Objective, Role, Expectations).\n\n" ++
  "      **User's Prompt to Analyze:**\n" ++
  "      \"\"\"\n" ++
  "      " ++ promptToAnalyze ++ "\n" ++
  "      \"\"\"\n\n" ++
  "      **Your Instructions:**\n" ++
  "      1.  **Deconstruct the Prompt:** Break down the provided prompt and identify elements that correspond to Context, Objective, Role, and Expectations. If a component is missing or weak, state that clearly.\n" ++
  "      2.  **Score the Prompt:** Provide a numerical score from 0 to 100, where 100 is a perfect, highly effective prompt. The score should be based on the clarity, completeness, and effectiveness of the C.O.R.E components.\n" ++
  "      3.  **Provide Detailed Analysis:** For each C.O.R.E component, give a brief analysis of its quality in the provided prompt.\n" ++
  "      4.  **Give Actionable Suggestions:** Offer concrete, actionable suggestions for how to improve the prompt.\n" ++
  "      5.  Your response MUST be a valid JSON object. Do not include any text, comments, or markdown formatting (like ```json) before or after the JSON object.\n    "

/-- Handler `handleAnalyze`: one structured completion, returned verbatim. -/
def handleAnalyze (promptToAnalyze : String) (pv : Provider) :
    Except String AnalysisResult × List Effect :=
  match pv.analyzeCompletion (buildAnalyzeMetaPrompt promptToAnalyze) with
  | Except.error e => (Except.error e, [Effect.callAnalyze])
  | Except.ok r => (Except.ok r, [Effect.callAnalyze])

/-- The parsed request envelope `{type, payload}`; `unknown ty` stands for
any envelope whose `type` string `ty` is neither `generate` nor
`analyze`. -/
inductive Envelope
  | generate (payload : GenRequest)
  | analyze (promptToAnalyze : String)
  | unknown (ty : String)

/-- The `type` string of an envelope. -/
def Envelope.envType : Envelope → String
  | Envelope.generate _ => "generate"
  | Envelope.analyze _ => "analyze"
  | Envelope.unknown ty => ty

/-- A JSON relay response: HTTP status and body, where the body is either
a generation result, an analysis result, or the `{error: string}` shape. -/
inductive ResponseBody
  | genOk (resp : GenResponse)
  | analyzeOk (resp : AnalysisResult)
  | err (msg : String)

/-- HTTP response of the relay. -/
structure RelayResponse where
  status : Nat
  body : ResponseBody

/-- Whether `!apiKey` holds for the environment credential: absent, or
present but the empty (falsy) string. -/
def apiKeyFalsy : Option String → Bool
  | none => true
  | some s => s = ""

/-- Dispatcher `onRequestPost`: credential check, body parse (an `Except.error`
models a `request.json()` throw, caught by the outer catch), dispatch on
the envelope type, and normalization of any handler failure to
`{error: string}` with status 500.  Paired with the trace of outbound
effects; `none` models an invocation that never returns. -/
def onRequestPost (apiKey : Option String) (body : Except String Envelope)
    (pv : Provider) (fuel : Nat) : Option (RelayResponse × List Effect) :=
  if apiKeyFalsy apiKey then
    some (⟨500, ResponseBody.err "API_KEY is not configured on the server."⟩, [])
  else
    match body with
    | Except.error e => some (⟨500, ResponseBody.err e⟩, [])
    | Except.ok env =>
      match env with
      | Envelope.generate payload =>
        match handleGenerate payload (apiKey.getD "") pv fuel with
        | none => none
        | some (Except.ok resp, tr) => some (⟨200, ResponseBody.genOk resp⟩, tr)
        | some (Except.error e, tr) => some (⟨500, ResponseBody.err e⟩, tr)
      | Envelope.analyze p =>
        match handleAnalyze p pv with
        | (Except.ok r, tr) => some (⟨200, ResponseBody.analyzeOk r⟩, tr)
        | (Except.error e, tr) => some (⟨500, ResponseBody.err e⟩, tr)
      | Envelope.unknown _ => some (⟨400, ResponseBody.err "Invalid request type"⟩, [])

/-! Client-side project export/import (`src/app.component.ts`). -/

/-- The client `GenerationState` signal value. -/
structure GenerationState where
  masterPrompts : List MasterPrompt
  preview : Preview
  isLoading : Bool
  error : Option String
  loadingMessage : String
  deriving DecidableEq

/-- The input signals captured by `exportProject` (the app component's
form state plus the last generation state). -/
structure AppState where
  context : String
  objective : String
  role : String
  expectations : String
  systemInstruction : String
  promptBody : String
  mediaInstruction : String
  aiPlatform : String
  outputType : String
  uploadedFile : Option UploadedFile
  previewLanguage : String
  masterLanguages : List (String × Bool)
  temperature : Float
  topP : Float
  aspectRatio : String
  generationState : GenerationState

/-- The serialized `PromptProject` document.  Every field is optional so
that older snapshots, in which a field may be absent (or JSON `null`,
which `??` treats the same way), are representable. -/
structure PromptProject where
  context : Option String
  objective : Option String
  role : Option String
  expectations : Option String
  systemInstruction : Option String
  promptBody : Option String
  mediaInstruction : Option String
  aiPlatform : Option String
  outputType : Option String
  uploadedFile : Option (Option UploadedFile)
  previewLanguage : Option String
  masterLanguages : Option (List (String × Bool))
  temperature : Option Float
  topP : Option Float
  aspectRatio : Option String
  generationState : Option GenerationState

/-- The default `masterLanguages` map of the component. -/
def defaultMasterLanguages : List (String × Bool) :=
  [("English", true), ("Vietnamese", true), ("Chinese", false),
   ("French", false), ("Japanese", false), ("Spanish", false)]

/-- The default `generationState` signal value. -/
def defaultGenerationState : GenerationState :=
  ⟨[], ⟨none, ""⟩, false, none, "..."⟩

/-- Export `exportProject`: serialize every input signal plus the generation
state; every field of the document is present. -/
def exportProject (s : AppState) : PromptProject where
  context := some s.context
  objective := some s.objective
  role := some s.role
  expectations := some s.expectations
  systemInstruction := some s.systemInstruction
  promptBody := some s.promptBody
  mediaInstruction := some s.mediaInstruction
  aiPlatform := some s.aiPlatform
  outputType := some s.outputType
  uploadedFile := some s.uploadedFile
  previewLanguage := some s.previewLanguage
  masterLanguages := some s.masterLanguages
  temperature := some s.temperature
  topP := some s.topP
  aspectRatio := some s.aspectRatio
  generationState := some s.generationState

/-- Import `onProjectImport` (the happy path inside the `try`): set each signal
to the snapshot's field, substituting the component's default (`?? ...`)
when the field is absent. -/
def onProjectImport (p : PromptProject) : AppState where
  context := p.context.getD ""
  objective := p.objective.getD ""
  role := p.role.getD ""
  expectations := p.expectations.getD ""
  systemInstruction := p.systemInstruction.getD ""
  promptBody := p.promptBody.getD ""
  mediaInstruction := p.mediaInstruction.getD ""
  aiPlatform := p.aiPlatform.getD "Gemini"
  outputType := p.outputType.getD "Image"
  uploadedFile := p.uploadedFile.getD none
  previewLanguage := p.previewLanguage.getD "Vietnamese"
  masterLanguages := p.masterLanguages.getD defaultMasterLanguages
  temperature := p.temperature.getD 0.7
  topP := p.topP.getD 0.95
  aspectRatio := p.aspectRatio.getD "1:1"
  generationState := p.generationState.getD defaultGenerationState

/-! Helper lemmas. -/

/-- Membership in `VIDEO_OUTPUT_TYPES` means one of its two tokens. -/
theorem video_contains_cases (s : String)
    (h : VIDEO_OUTPUT_TYPES.contains s = true) :
    s = "Video" ∨ s = "Phim ngắn" := by
  have := List.mem_of_elem_eq_true h
  simpa [VIDEO_OUTPUT_TYPES] using this

/-- The image and video output-type token sets are disjoint. -/
theorem image_contains_false_of_video (s : String)
    (h : VIDEO_OUTPUT_TYPES.contains s = true) :
    IMAGE_OUTPUT_TYPES.contains s = false := by
  rcases video_contains_cases s h with h | h <;> subst h <;> decide

/-- Classification when the output type is an image token. -/
theorem classifyOutputType_image (s : String)
    (h : IMAGE_OUTPUT_TYPES.contains s = true) :
    classifyOutputType s = PreviewKind.image := by
  unfold classifyOutputType
  rw [h]
  simp

/-- Classification when the output type is a video token. -/
theorem classifyOutputType_video (s : String)
    (himg : IMAGE_OUTPUT_TYPES.contains s = false)
    (hvid : VIDEO_OUTPUT_TYPES.contains s = true) :
    classifyOutputType s = PreviewKind.video := by
  unfold classifyOutputType
  rw [himg, hvid]
  simp

/-- Classification of any other output type. -/
theorem classifyOutputType_text (s : String)
    (himg : IMAGE_OUTPUT_TYPES.contains s = false)
    (hvid : VIDEO_OUTPUT_TYPES.contains s = false) :
    classifyOutputType s = PreviewKind.text := by
  unfold classifyOutputType
  rw [himg, hvid]
  simp

/-- A successful `handleGenerate` result carries the structured
completion's prompt list verbatim and a preview whose type tag matches
the output-type classification. -/
theorem handleGenerate_ok_shape (data : GenRequest) (apiKey : String) (pv : Provider)
    (fuel : Nat) (resp : GenResponse) (tr : List Effect)
    (h : handleGenerate data apiKey pv fuel = some (Except.ok resp, tr)) :
    resp.preview.type = some (classifyOutputType data.outputType) ∧
    pv.structuredCompletion (buildMetaPrompt data) = Except.ok (some resp.masterPrompts) ∧
    resp.masterPrompts ≠ [] := by
  unfold handleGenerate at h
  split at h
  case h_1 => simp at h
  case h_2 => simp at h
  case h_3 => simp at h
  case h_4 e masterPrompts heq =>
    rw [heq]
    split at h
    case isTrue himg =>
      simp only [Option.some.injEq, Prod.mk.injEq, Except.ok.injEq] at h
      obtain ⟨hresp, -⟩ := h
      subst hresp
      exact ⟨by rw [classifyOutputType_image _ himg], rfl, masterPrompts⟩
    case isFalse himg =>
      rw [Bool.not_eq_true] at himg
      split at h
      case isTrue hvid =>
        simp only [] at h
        split at h
        case h_1 => simp at h
        case h_2 evs finalOp hloop =>
          split at h
          case h_1 link huri =>
            split at h
            case isTrue => simp at h
            case isFalse hne =>
              simp only [Option.some.injEq, Prod.mk.injEq, Except.ok.injEq] at h
              obtain ⟨hresp, -⟩ := h
              subst hresp
              exact ⟨by rw [classifyOutputType_video _ himg hvid], rfl, masterPrompts⟩
          case h_2 huri => simp at h
      case isFalse hvid =>
        rw [Bool.not_eq_true] at hvid
        simp only [Option.some.injEq, Prod.mk.injEq, Except.ok.injEq] at h
        obtain ⟨hresp, -⟩ := h
        subst hresp
        exact ⟨by rw [classifyOutputType_text _ himg hvid], rfl, masterPrompts⟩

/-- The loop returns immediately when the current operation is done. -/
theorem videoPollLoop_done (fuel : Nat) (op : Operation) (reports : Nat → Operation)
    (h : op.done = true) : videoPollLoop fuel op reports = some ([], op) := by
  unfold videoPollLoop
  rw [h]
  simp

/-- With no fuel and a pending operation, the model reports divergence. -/
theorem videoPollLoop_zero (op : Operation) (reports : Nat → Operation)
    (h : op.done = false) : videoPollLoop 0 op reports = none := by
  unfold videoPollLoop
  rw [h]
  simp

/-- One unfolding of the loop on a pending operation: sleep, poll once,
continue with the shifted report stream. -/
theorem videoPollLoop_step (f : Nat) (op : Operation) (reports : Nat → Operation)
    (h : op.done = false) :
    videoPollLoop (f + 1) op reports =
      match videoPollLoop f (reports 0) (fun k => reports (k + 1)) with
      | none => none
      | some (evs, final) => some (Effect.sleep 5000 :: Effect.callVideoPoll :: evs, final) := by
  conv_lhs => rw [videoPollLoop.eq_def]
  rw [h]
  rfl

/-- Full trace of the loop on a job that reports "not done" `N` times and
then "done": exactly `N + 1` sleep-then-poll rounds, finishing on the
`(N+1)`-st report. -/
theorem videoPollLoop_trace (N : Nat) :
    ∀ (fuel : Nat) (op : Operation) (reports : Nat → Operation),
      op.done = false →
      (∀ k, k < N → (reports k).done = false) →
      (reports N).done = true →
      N + 1 ≤ fuel →
      videoPollLoop fuel op reports =
        some ((List.replicate (N + 1) [Effect.sleep 5000, Effect.callVideoPoll]).flatten,
              reports N) := by
  induction N with
  | zero =>
    intro fuel op reports hop _ hdone hfuel
    obtain ⟨f, rfl⟩ : ∃ f, fuel = f + 1 := ⟨fuel - 1, by omega⟩
    rw [videoPollLoop_step f op reports hop, videoPollLoop_done f (reports 0) _ hdone]
    simp
  | succ N ih =>
    intro fuel op reports hop hbefore hdone hfuel
    obtain ⟨f, rfl⟩ : ∃ f, fuel = f + 1 := ⟨fuel - 1, by omega⟩
    rw [videoPollLoop_step f op reports hop]
    rw [ih f (reports 0) (fun k => reports (k + 1)) (hbefore 0 (Nat.succ_pos N))
      (fun k hk => hbefore (k + 1) (by omega)) hdone (by omega)]
    simp [List.replicate_succ]

/-- If the `(n+1)`-st report is done, `n + 1` units of fuel suffice. -/
theorem videoPollLoop_isSome_of_done (n : Nat) :
    ∀ (op : Operation) (reports : Nat → Operation), (reports n).done = true →
      (videoPollLoop (n + 1) op reports).isSome = true := by
  induction n with
  | zero =>
    intro op reports hdone
    by_cases hop : op.done = true
    · rw [videoPollLoop_done _ _ _ hop]; rfl
    · rw [Bool.not_eq_true] at hop
      rw [videoPollLoop_step 0 op reports hop, videoPollLoop_done 0 (reports 0) _ hdone]
      rfl
  | succ n ih =>
    intro op reports hdone
    by_cases hop : op.done = true
    · rw [videoPollLoop_done _ _ _ hop]; rfl
    · rw [Bool.not_eq_true] at hop
      rw [videoPollLoop_step (n + 1) op reports hop]
      have hrec := ih (reports 0) (fun k => reports (k + 1)) hdone
      cases hr : videoPollLoop (n + 1) (reports 0) (fun k => reports (k + 1)) with
      | none => rw [hr] at hrec; simp at hrec
      | some r => obtain ⟨evs, final⟩ := r; rfl

/-- A job that never reports done makes the loop exhaust any fuel. -/
theorem videoPollLoop_none_of_never_done (fuel : Nat) :
    ∀ (op : Operation) (reports : Nat → Operation), op.done = false →
      (∀ n, (reports n).done = false) → videoPollLoop fuel op reports = none := by
  induction fuel with
  | zero => intro op reports hop _; exact videoPollLoop_zero op reports hop
  | succ f ih =>
    intro op reports hop hnever
    rw [videoPollLoop_step f op reports hop,
      ih (reports 0) (fun k => reports (k + 1)) (hnever 0) (fun n => hnever (n + 1))]

/-- A loop that returns saw a done report (or a done initial operation). -/
theorem videoPollLoop_some_implies_done (fuel : Nat) :
    ∀ (op : Operation) (reports : Nat → Operation) (r : List Effect × Operation),
      videoPollLoop fuel op reports = some r →
      op.done = true ∨ ∃ n, (reports n).done = true := by
  induction fuel with
  | zero =>
    intro op reports r h
    by_cases hop : op.done = true
    · exact Or.inl hop
    · rw [Bool.not_eq_true] at hop
      rw [videoPollLoop_zero op reports hop] at h
      exact absurd h (by simp)
  | succ f ih =>
    intro op reports r h
    by_cases hop : op.done = true
    · exact Or.inl hop
    · rw [Bool.not_eq_true] at hop
      rw [videoPollLoop_step f op reports hop] at h
      cases hr : videoPollLoop f (reports 0) (fun k => reports (k + 1)) with
      | none => rw [hr] at h; simp at h
      | some r2 =>
        rcases ih (reports 0) _ r2 hr with h0 | ⟨n, hn⟩
        · exact Or.inr ⟨0, h0⟩
        · exact Or.inr ⟨n + 1, hn⟩

/-! Concrete fixtures used by witnesses and counterexamples. -/

/-- A concrete provider oracle for witnesses. -/
def sampleProvider : Provider where
  structuredCompletion := fun _ =>
    Except.ok (some [⟨"English", "Base"⟩, ⟨"Vietnamese", "VN"⟩])
  textCompletion := fun _ _ _ => "text-preview"
  generateImagesCall := fun _ _ => "IMGBYTES"
  generateVideosCall := fun _ _ => ⟨false, none⟩
  videoReports := fun n => if n < 2 then ⟨false, none⟩ else ⟨true, some "https://asset"⟩
  fetchAsset := fun _ => ⟨"video/mp4", "VIDB64"⟩
  analyzeCompletion := fun _ => Except.ok ⟨85.0, "c", "o", "r", "e", "s"⟩

/-- A concrete text-output generation request. -/
def sampleRequest : GenRequest where
  context := "ctx"
  objective := "obj"
  role := "role"
  expectations := "exp"
  systemInstruction := "sys"
  promptBody := "body"
  mediaInstruction := ""
  aiPlatform := "Gemini"
  outputType := "Email"
  file := none
  previewLanguage := "Vietnamese"
  masterPromptLanguages := ["English", "Vietnamese"]
  temperature := 0.7
  topP := 0.95
  aspectRatio := "1:1"

/-- A provider that answers a language the caller did not request. -/
def mismatchProvider : Provider :=
  { sampleProvider with
    structuredCompletion := fun _ => Except.ok (some [⟨"German", "g"⟩]) }

/-- A provider whose English master prompt is the empty string, and whose
text completion echoes the single text part it receives. -/
def emptyEnglishProvider : Provider :=
  { sampleProvider with
    structuredCompletion := fun _ => Except.ok (some [⟨"French", "F"⟩, ⟨"English", ""⟩])
    textCompletion := fun parts _ _ =>
      match parts with
      | [ContentPart.text t] => t
      | _ => "other" }

/-- A provider whose video job completes at once but exposes no asset
link. -/
def noAssetProvider : Provider :=
  { sampleProvider with videoReports := fun _ => ⟨true, none⟩ }

/-- A provider whose video job never reports done. -/
def stalledProvider : Provider :=
  { sampleProvider with videoReports := fun _ => ⟨false, none⟩ }

/-! Claim theorems. -/

/-- C2: output-type classification is a pure total function of the
`outputType` string — image tokens select the image pathway, video tokens
the video pathway, and any other string the text pathway — and every
successful generation response carries exactly the preview kind of the
chosen pathway. -/
theorem output_type_classification :
    (∀ s, IMAGE_OUTPUT_TYPES.contains s = true → classifyOutputType s = PreviewKind.image) ∧
    (∀ s, VIDEO_OUTPUT_TYPES.contains s = true → classifyOutputType s = PreviewKind.video) ∧
    (∀ s, IMAGE_OUTPUT_TYPES.contains s = false → VIDEO_OUTPUT_TYPES.contains s = false →
      classifyOutputType s = PreviewKind.text) ∧
    classifyOutputType "Image" = PreviewKind.image ∧
    classifyOutputType "Ảnh" = PreviewKind.image ∧
    classifyOutputType "Hình ảnh" = PreviewKind.image ∧
    classifyOutputType "Video" = PreviewKind.video ∧
    classifyOutputType "Phim ngắn" = PreviewKind.video ∧
    classifyOutputType "Email" = PreviewKind.text ∧
    (∀ (data : GenRequest) (apiKey : String) (pv : Provider) (fuel : Nat)
       (resp : GenResponse) (tr : List Effect),
      handleGenerate data apiKey pv fuel = some (Except.ok resp, tr) →
      resp.preview.type = some (classifyOutputType data.outputType)) := by
  refine ⟨classifyOutputType_image, ?_, classifyOutputType_text,
    by decide, by decide, by decide, by decide, by decide, by decide, ?_⟩
  · intro s h
    exact classifyOutputType_video s (image_contains_false_of_video s h) h
  · intro data apiKey pv fuel resp tr h
    exact (handleGenerate_ok_shape data apiKey pv fuel resp tr h).1

/-- C2 witness: a concrete successful text-pathway run whose preview kind
matches the classification of its output type. -/
theorem output_type_classification_witness :
    (⟨[⟨"English", "Base"⟩, ⟨"Vietnamese", "VN"⟩],
      ⟨some PreviewKind.text, "text-preview"⟩⟩ : GenResponse).preview.type =
      some (classifyOutputType sampleRequest.outputType) :=
  output_type_classification.2.2.2.2.2.2.2.2.2 sampleRequest "k" sampleProvider 0
    ⟨[⟨"English", "Base"⟩, ⟨"Vietnamese", "VN"⟩], ⟨some PreviewKind.text, "text-preview"⟩⟩
    [Effect.callStructured, Effect.callText] rfl

/-- C5: with the server credential absent, the relay answers the same
fixed configuration-error response for every request body — parsed or
unparsable, of any envelope type — and issues no provider call (empty
effect trace). -/
theorem missing_api_key_config_error :
    ∀ (body : Except String Envelope) (pv : Provider) (fuel : Nat),
      onRequestPost none body pv fuel =
        some (⟨500, ResponseBody.err "API_KEY is not configured on the server."⟩, []) :=
  fun _ _ _ => rfl

/-- C6: an envelope whose type string is neither `generate` nor `analyze`
yields the invalid-request error and an empty effect trace (no provider
call). -/
theorem unknown_envelope_invalid_request (k : String) (hk : k ≠ "") (env : Envelope)
    (hg : env.envType ≠ "generate") (ha : env.envType ≠ "analyze")
    (pv : Provider) (fuel : Nat) :
    onRequestPost (some k) (Except.ok env) pv fuel =
      some (⟨400, ResponseBody.err "Invalid request type"⟩, []) := by
  cases env with
  | generate payload => exact absurd rfl hg
  | analyze p => exact absurd rfl ha
  | unknown t =>
    unfold onRequestPost
    rw [if_neg]
    simp [apiKeyFalsy, hk]

/-- C6 witness: a concrete `delete` envelope. -/
theorem unknown_envelope_invalid_request_witness :
    onRequestPost (some "secret") (Except.ok (Envelope.unknown "delete")) sampleProvider 0 =
      some (⟨400, ResponseBody.err "Invalid request type"⟩, []) :=
  unknown_envelope_invalid_request "secret" (by decide) (Envelope.unknown "delete")
    (by decide) (by decide) sampleProvider 0

/-- C3 counterexample: the relay forwards the provider's prompt list
verbatim, so a provider reply lacking a requested language still yields a
successful response; here `English` is requested but the response's
masterPrompts contain no English entry (and not one entry per requested
language). -/
theorem master_prompts_language_mismatch_cex :
    handleGenerate sampleRequest "k" mismatchProvider 0 =
      some (Except.ok ⟨[⟨"German", "g"⟩], ⟨some PreviewKind.text, "text-preview"⟩⟩,
            [Effect.callStructured, Effect.callText]) ∧
    "English" ∈ sampleRequest.masterPromptLanguages ∧
    (([⟨"German", "g"⟩] : List MasterPrompt).filter
        (fun p => p.language = "English")).length = 0 :=
  ⟨rfl, by decide, by decide⟩

/-- C3 (amended): the masterPrompts sequence of a successful response is
exactly the non-empty prompts sequence returned by the structured
completion — the relay validates only presence and non-emptiness, so
one-entry-per-requested-language (and non-empty text) holds exactly when
the provider's reply has that form. -/
theorem master_prompts_returned_verbatim
    (data : GenRequest) (apiKey : String) (pv : Provider) (fuel : Nat)
    (resp : GenResponse) (tr : List Effect)
    (h : handleGenerate data apiKey pv fuel = some (Except.ok resp, tr)) :
    pv.structuredCompletion (buildMetaPrompt data) = Except.ok (some resp.masterPrompts) ∧
    resp.masterPrompts ≠ [] :=
  (handleGenerate_ok_shape data apiKey pv fuel resp tr h).2

/-- C3 witness: a concrete run in which the response repeats the
provider's two-language reply verbatim. -/
theorem master_prompts_returned_verbatim_witness :
    sampleProvider.structuredCompletion (buildMetaPrompt sampleRequest) =
      Except.ok (some ([⟨"English", "Base"⟩, ⟨"Vietnamese", "VN"⟩] : List MasterPrompt)) :=
  (master_prompts_returned_verbatim sampleRequest "k" sampleProvider 0
    ⟨[⟨"English", "Base"⟩, ⟨"Vietnamese", "VN"⟩], ⟨some PreviewKind.text, "text-preview"⟩⟩
    [Effect.callStructured, Effect.callText] rfl).1

/-- C4 counterexample: with prompts `[{French,"F"}, {English,""}]` the
English entry exists but its prompt is empty, and the JavaScript `||`
falls back to the first entry's prompt `"F"`; the text preview is then
driven by `"F"`, not by the English entry's prompt. -/
theorem base_prompt_empty_english_cex :
    basePromptForPreview [⟨"French", "F"⟩, ⟨"English", ""⟩] = "F" ∧
    List.find? (fun p => lowerString p.language = "english")
        [(⟨"French", "F"⟩ : MasterPrompt), ⟨"English", ""⟩] = some ⟨"English", ""⟩ ∧
    handleGenerate sampleRequest "k" emptyEnglishProvider 0 =
      some (Except.ok ⟨[⟨"French", "F"⟩, ⟨"English", ""⟩],
        ⟨some PreviewKind.text,
         "F\n\n--- IMPORTANT: Please provide your entire response in Vietnamese. ---"⟩⟩,
        [Effect.callStructured, Effect.callText]) :=
  ⟨by decide, by decide, rfl⟩

/-- C4 (amended): the base prompt is the prompt of the first entry whose
language is `english` case-insensitively, provided that prompt is
non-empty; when there is no such entry, or its prompt is the empty
string (falsy under `||`), it is the prompt of the first entry in
response order. -/
theorem base_prompt_selection_amended (ps : List MasterPrompt) (p : MasterPrompt) :
    (ps.find? (fun q => lowerString q.language = "english") = some p → p.prompt ≠ "" →
      basePromptForPreview ps = p.prompt) ∧
    (ps.find? (fun q => lowerString q.language = "english") = some p → p.prompt = "" →
      basePromptForPreview ps = (ps.headD ⟨"", ""⟩).prompt) ∧
    (ps.find? (fun q => lowerString q.language = "english") = none →
      basePromptForPreview ps = (ps.headD ⟨"", ""⟩).prompt) := by
  refine ⟨?_, ?_, ?_⟩
  · intro h1 h2
    simp only [basePromptForPreview, h1]
    rw [if_neg h2]
  · intro h1 h2
    simp only [basePromptForPreview, h1]
    rw [if_pos h2]
  · intro h1
    simp only [basePromptForPreview, h1]

/-- C4 witness: a non-empty English prompt in second position is
selected. -/
theorem base_prompt_selection_amended_witness :
    basePromptForPreview [⟨"French", "F"⟩, ⟨"English", "X"⟩] = "X" :=
  (base_prompt_selection_amended [⟨"French", "F"⟩, ⟨"English", "X"⟩]
    ⟨"English", "X"⟩).1 (by decide) (by decide)

/-- Counting polls and sleeps in the loop trace. -/
theorem count_poll_flatten_replicate (N : Nat) :
    ((List.replicate N [Effect.sleep 5000, Effect.callVideoPoll]).flatten.count
        Effect.callVideoPoll) = N ∧
    ((List.replicate N [Effect.sleep 5000, Effect.callVideoPoll]).flatten.count
        (Effect.sleep 5000)) = N := by
  induction N with
  | zero => exact ⟨rfl, rfl⟩
  | succ n ih =>
    rw [List.replicate_succ, List.flatten_cons]
    constructor <;>
      simp [List.count_append, List.count_cons, ih.1, ih.2]

/-- C1: for a video-pathway request whose submitted job reports "not
done" `N` times and then "done" with a truthy (present and non-empty)
asset link, the relay makes exactly `N + 1` status polls, each preceded
by one fixed 5000 ms sleep, and then fetches and materializes the asset
as a base64 data URL. -/
theorem video_polls_exactly_n_plus_one
    (data : GenRequest) (apiKey : String) (pv : Provider) (fuel N : Nat)
    (p : MasterPrompt) (ps : List MasterPrompt) (link : String)
    (hvid : VIDEO_OUTPUT_TYPES.contains data.outputType = true)
    (hsc : pv.structuredCompletion (buildMetaPrompt data) = Except.ok (some (p :: ps)))
    (hinit : (pv.generateVideosCall (basePromptForPreview (p :: ps))
      (videoImageSeed data.file)).done = false)
    (hbefore : ∀ k, k < N → (pv.videoReports k).done = false)
    (hdone : (pv.videoReports N).done = true)
    (hlink : (pv.videoReports N).uri = some link)
    (hlink2 : link ≠ "")
    (hfuel : N + 1 ≤ fuel) :
    handleGenerate data apiKey pv fuel =
      some (Except.ok ⟨p :: ps,
        ⟨some PreviewKind.video,
         "data:" ++ (pv.fetchAsset (link ++ "&key=" ++ apiKey)).type ++ ";base64," ++
           (pv.fetchAsset (link ++ "&key=" ++ apiKey)).base64⟩⟩,
        [Effect.callStructured, Effect.callVideoSubmit] ++
          (List.replicate (N + 1) [Effect.sleep 5000, Effect.callVideoPoll]).flatten ++
          [Effect.callAssetFetch]) ∧
    ((List.replicate (N + 1) [Effect.sleep 5000, Effect.callVideoPoll]).flatten.count
        Effect.callVideoPoll = N + 1) ∧
    ((List.replicate (N + 1) [Effect.sleep 5000, Effect.callVideoPoll]).flatten.count
        (Effect.sleep 5000) = N + 1) := by
  have himg := image_contains_false_of_video _ hvid
  have hloop := videoPollLoop_trace N fuel
    (pv.generateVideosCall (basePromptForPreview (p :: ps)) (videoImageSeed data.file))
    pv.videoReports hinit hbefore hdone hfuel
  refine ⟨?_, (count_poll_flatten_replicate (N + 1)).1,
    (count_poll_flatten_replicate (N + 1)).2⟩
  simp [handleGenerate, hsc, himg, hvid, hloop, hlink, hlink2]
  rw [if_neg (by simpa using himg), if_pos (by simpa using hvid)]

/-- C1 witness: two "not done" reports then "done" gives three polls and
three sleeps before the asset fetch. -/
theorem video_polls_exactly_n_plus_one_witness :
    handleGenerate { sampleRequest with outputType := "Video" } "k" sampleProvider 3 =
      some (Except.ok ⟨[⟨"English", "Base"⟩, ⟨"Vietnamese", "VN"⟩],
        ⟨some PreviewKind.video, "data:video/mp4;base64,VIDB64"⟩⟩,
        [Effect.callStructured, Effect.callVideoSubmit] ++
          (List.replicate 3 [Effect.sleep 5000, Effect.callVideoPoll]).flatten ++
          [Effect.callAssetFetch]) ∧
    (List.replicate 3 [Effect.sleep 5000, Effect.callVideoPoll]).flatten.count
      Effect.callVideoPoll = 3 := by
  have h := video_polls_exactly_n_plus_one { sampleRequest with outputType := "Video" } "k"
    sampleProvider 3 2 ⟨"English", "Base"⟩ [⟨"Vietnamese", "VN"⟩] "https://asset"
    (by decide) rfl rfl
    (fun k hk => by simp only [sampleProvider]; rw [if_pos hk])
    rfl rfl (by decide) (by omega)
  exact ⟨h.1, h.2.1⟩

/-- On the video pathway the handler returns exactly when the polling
loop does. -/
theorem handleGenerate_video_isSome
    (data : GenRequest) (apiKey : String) (pv : Provider) (fuel : Nat)
    (p : MasterPrompt) (ps : List MasterPrompt)
    (hvid : VIDEO_OUTPUT_TYPES.contains data.outputType = true)
    (hsc : pv.structuredCompletion (buildMetaPrompt data) = Except.ok (some (p :: ps))) :
    (handleGenerate data apiKey pv fuel).isSome =
      (videoPollLoop fuel (pv.generateVideosCall (basePromptForPreview (p :: ps))
        (videoImageSeed data.file)) pv.videoReports).isSome := by
  have himg := image_contains_false_of_video _ hvid
  have himg2 : ¬(IMAGE_OUTPUT_TYPES.contains data.outputType = true) := fun hc =>
    Bool.false_ne_true (himg ▸ hc)
  simp only [handleGenerate, hsc]
  rw [if_neg himg2, if_pos hvid]
  cases hloop : videoPollLoop fuel (pv.generateVideosCall (basePromptForPreview (p :: ps))
      (videoImageSeed data.file)) pv.videoReports with
  | none => rfl
  | some r =>
    obtain ⟨evs, done, uri⟩ := r
    cases uri with
    | none => rfl
    | some s => by_cases hs : s = "" <;> simp [hs]

/-- C8: the video polling loop terminates precisely when the job
eventually reports done — and, on the video pathway after a successful
structured completion, the handler itself returns precisely when the
submitted operation is already done or some later status report is done;
no fuel bound internal to the code cuts a stalled job short. -/
theorem video_polling_terminates_iff_done :
    (∀ (op : Operation) (reports : Nat → Operation),
      (∃ fuel r, videoPollLoop fuel op reports = some r) ↔
        op.done = true ∨ ∃ n, (reports n).done = true) ∧
    (∀ (data : GenRequest) (apiKey : String) (pv : Provider)
       (p : MasterPrompt) (ps : List MasterPrompt),
      VIDEO_OUTPUT_TYPES.contains data.outputType = true →
      pv.structuredCompletion (buildMetaPrompt data) = Except.ok (some (p :: ps)) →
      ((∃ fuel r, handleGenerate data apiKey pv fuel = some r) ↔
        (pv.generateVideosCall (basePromptForPreview (p :: ps))
            (videoImageSeed data.file)).done = true ∨
          ∃ n, (pv.videoReports n).done = true)) := by
  have loopIff : ∀ (op : Operation) (reports : Nat → Operation),
      (∃ fuel r, videoPollLoop fuel op reports = some r) ↔
        op.done = true ∨ ∃ n, (reports n).done = true := by
    intro op reports
    constructor
    · rintro ⟨fuel, r, h⟩
      exact videoPollLoop_some_implies_done fuel op reports r h
    · rintro (hop | ⟨n, hn⟩)
      · exact ⟨0, ([], op), videoPollLoop_done 0 op reports hop⟩
      · obtain ⟨r, hr⟩ :=
          Option.isSome_iff_exists.mp (videoPollLoop_isSome_of_done n op reports hn)
        exact ⟨n + 1, r, hr⟩
  refine ⟨loopIff, ?_⟩
  intro data apiKey pv p ps hvid hsc
  constructor
  · rintro ⟨fuel, r, h⟩
    have hs : (videoPollLoop fuel (pv.generateVideosCall (basePromptForPreview (p :: ps))
        (videoImageSeed data.file)) pv.videoReports).isSome = true := by
      rw [← handleGenerate_video_isSome data apiKey pv fuel p ps hvid hsc, h]
      rfl
    obtain ⟨r2, hr2⟩ := Option.isSome_iff_exists.mp hs
    exact (loopIff _ _).mp ⟨fuel, r2, hr2⟩
  · intro hr
    obtain ⟨fuel, r2, hr2⟩ := (loopIff _ _).mpr hr
    have hs : (handleGenerate data apiKey pv fuel).isSome = true := by
      rw [handleGenerate_video_isSome data apiKey pv fuel p ps hvid hsc, hr2]
      rfl
    obtain ⟨r, hrr⟩ := Option.isSome_iff_exists.mp hs
    exact ⟨fuel, r, hrr⟩

/-- C8 witness: for a job that never reports done, the handler-level
termination criterion instantiates to a concrete stalled provider. -/
theorem video_polling_terminates_iff_done_witness :
    (∃ fuel r, handleGenerate { sampleRequest with outputType := "Video" } "k"
        stalledProvider fuel = some r) ↔
      (stalledProvider.generateVideosCall
          (basePromptForPreview [⟨"English", "Base"⟩, ⟨"Vietnamese", "VN"⟩])
          (videoImageSeed ({ sampleRequest with outputType := "Video" } : GenRequest).file)).done
          = true ∨
        ∃ n, (stalledProvider.videoReports n).done = true :=
  video_polling_terminates_iff_done.2 { sampleRequest with outputType := "Video" } "k"
    stalledProvider ⟨"English", "Base"⟩ [⟨"Vietnamese", "VN"⟩] (by decide) rfl

/-- C7: every handler failure is caught at the `onRequestPost` boundary
and normalized to the `{error: string}` body with HTTP 500; an empty
structured prompt result fails after the single structured call (no
retry), and a completed video job without an asset link yields the
generation-error result — after its polls, with no asset fetch — rather
than a crash. -/
theorem handler_failures_normalized :
    (∀ (k : String), apiKeyFalsy (some k) = false →
      ∀ (req : GenRequest) (pv : Provider) (fuel : Nat) (e : String) (tr : List Effect),
        handleGenerate req k pv fuel = some (Except.error e, tr) →
        onRequestPost (some k) (Except.ok (Envelope.generate req)) pv fuel =
          some (⟨500, ResponseBody.err e⟩, tr)) ∧
    (∀ (k : String), apiKeyFalsy (some k) = false →
      ∀ (pr : String) (pv : Provider) (e : String) (tr : List Effect) (fuel : Nat),
        handleAnalyze pr pv = (Except.error e, tr) →
        onRequestPost (some k) (Except.ok (Envelope.analyze pr)) pv fuel =
          some (⟨500, ResponseBody.err e⟩, tr)) ∧
    (∀ (req : GenRequest) (k : String) (pv : Provider) (fuel : Nat),
      pv.structuredCompletion (buildMetaPrompt req) = Except.ok (some []) →
      handleGenerate req k pv fuel =
        some (Except.error "AI did not return any prompts.", [Effect.callStructured])) ∧
    (∀ (data : GenRequest) (k : String) (pv : Provider) (fuel N : Nat)
       (p : MasterPrompt) (ps : List MasterPrompt),
      VIDEO_OUTPUT_TYPES.contains data.outputType = true →
      pv.structuredCompletion (buildMetaPrompt data) = Except.ok (some (p :: ps)) →
      (pv.generateVideosCall (basePromptForPreview (p :: ps))
        (videoImageSeed data.file)).done = false →
      (∀ j, j < N → (pv.videoReports j).done = false) →
      (pv.videoReports N).done = true →
      (pv.videoReports N).uri = none →
      N + 1 ≤ fuel →
      handleGenerate data k pv fuel =
        some (Except.error "Could not generate video.",
          [Effect.callStructured, Effect.callVideoSubmit] ++
            (List.replicate (N + 1) [Effect.sleep 5000, Effect.callVideoPoll]).flatten)) := by
  refine ⟨?_, ?_, ?_, ?_⟩
  · intro k hk req pv fuel e tr h
    unfold onRequestPost
    rw [if_neg (by simp [hk])]
    simp [Option.getD_some, h]
  · intro k hk pr pv e tr fuel h
    unfold onRequestPost
    rw [if_neg (by simp [hk])]
    simp [h]
  · intro req k pv fuel h
    simp [handleGenerate, h]
  · intro data k pv fuel N p ps hvid hsc hinit hbefore hdone huri hfuel
    have himg := image_contains_false_of_video _ hvid
    have hloop := videoPollLoop_trace N fuel
      (pv.generateVideosCall (basePromptForPreview (p :: ps)) (videoImageSeed data.file))
      pv.videoReports hinit hbefore hdone hfuel
    simp [handleGenerate, hsc, himg, hvid, hloop, huri]
    rw [if_neg (by simpa using himg), if_pos (by simpa using hvid)]

/-- C7 witness: a completed video job with no asset link is normalized at
the boundary to the 500 `{error: ...}` response, with one poll round and
no asset fetch in the trace. -/
theorem handler_failures_normalized_witness :
    onRequestPost (some "k")
        (Except.ok (Envelope.generate { sampleRequest with outputType := "Video" }))
        noAssetProvider 1 =
      some (⟨500, ResponseBody.err "Could not generate video."⟩,
        [Effect.callStructured, Effect.callVideoSubmit] ++
          (List.replicate 1 [Effect.sleep 5000, Effect.callVideoPoll]).flatten) := by
  have h4 := handler_failures_normalized.2.2.2 { sampleRequest with outputType := "Video" }
    "k" noAssetProvider 1 0 ⟨"English", "Base"⟩ [⟨"Vietnamese", "VN"⟩]
    (by decide) rfl rfl (fun j hj => absurd hj (Nat.not_lt_zero j)) rfl rfl (by omega)
  exact handler_failures_normalized.1 "k" (by decide) _ _ _ _ _ h4

/-- C10: a text-pathway request whose inline file has no payload after
the first comma behaves exactly as if no file had been supplied: the file
part is silently dropped and the whole handler result (success or error,
and the effect trace) is unchanged. -/
theorem empty_file_payload_omitted
    (data : GenRequest) (f : UploadedFile) (apiKey : String) (pv : Provider) (fuel : Nat)
    (hfile : data.file = some f)
    (hsplit : (splitOnComma f.data)[1]? = none ∨ (splitOnComma f.data)[1]? = some "")
    (himg : IMAGE_OUTPUT_TYPES.contains data.outputType = false)
    (hvid : VIDEO_OUTPUT_TYPES.contains data.outputType = false) :
    handleGenerate data apiKey pv fuel =
      handleGenerate { data with file := none } apiKey pv fuel := by
  have hparts : ∀ base, previewPromptParts base data.file = previewPromptParts base none := by
    intro base
    rw [hfile]
    rcases hsplit with h | h <;> simp [previewPromptParts, h]
  have himg2 : ¬(IMAGE_OUTPUT_TYPES.contains data.outputType = true) := fun hc =>
    Bool.false_ne_true (himg ▸ hc)
  have hvid2 : ¬(VIDEO_OUTPUT_TYPES.contains data.outputType = true) := fun hc =>
    Bool.false_ne_true (hvid ▸ hc)
  have hmeta : buildMetaPrompt { data with file := none } = buildMetaPrompt data := rfl
  have hfile2 : ({ data with file := none } : GenRequest).file = none := rfl
  simp only [handleGenerate, hmeta]
  cases hsc : pv.structuredCompletion (buildMetaPrompt data) with
  | error e => rfl
  | ok r =>
    cases r with
    | none => rfl
    | some l =>
      cases l with
      | nil => rfl
      | cons p ps =>
        simp only [if_neg himg2, if_neg hvid2, hfile2, hparts]

/-- C10 witness: a file whose data is `data:image/png;base64,` (empty
payload) leaves a concrete text-pathway run unchanged. -/
theorem empty_file_payload_omitted_witness :
    handleGenerate { sampleRequest with
        file := some ⟨"data:image/png;base64,", "image/png", "pic.png"⟩ }
        "k" sampleProvider 0 =
      handleGenerate sampleRequest "k" sampleProvider 0 :=
  empty_file_payload_omitted
    { sampleRequest with file := some ⟨"data:image/png;base64,", "image/png", "pic.png"⟩ }
    ⟨"data:image/png;base64,", "image/png", "pic.png"⟩ "k" sampleProvider 0 rfl
    (Or.inr (by decide)) (by decide) (by decide)

/-- A concrete populated application state. -/
def sampleAppState : AppState where
  context := "c"
  objective := "o"
  role := "r"
  expectations := "e"
  systemInstruction := "si"
  promptBody := "pb"
  mediaInstruction := "mi"
  aiPlatform := "ChatGPT"
  outputType := "Video"
  uploadedFile := some ⟨"data:image/png;base64,AAA", "image/png", "pic.png"⟩
  previewLanguage := "English"
  masterLanguages := [("English", true), ("Vietnamese", false)]
  temperature := 0.3
  topP := 0.9
  aspectRatio := "16:9"
  generationState :=
    ⟨[⟨"English", "Base"⟩], ⟨some PreviewKind.text, "text-preview"⟩, false, none, ""⟩

/-- An older snapshot in which every field is absent. -/
def emptyProject : PromptProject where
  context := none
  objective := none
  role := none
  expectations := none
  systemInstruction := none
  promptBody := none
  mediaInstruction := none
  aiPlatform := none
  outputType := none
  uploadedFile := none
  previewLanguage := none
  masterLanguages := none
  temperature := none
  topP := none
  aspectRatio := none
  generationState := none

/-- C9: exporting a project snapshot and re-importing it reproduces every
input field and the stored generation state exactly; and any field absent
from an (older) snapshot is set to its documented default on import. -/
theorem project_export_import_roundtrip :
    (∀ s : AppState, onProjectImport (exportProject s) = s) ∧
    (∀ p : PromptProject,
      (p.context = none → (onProjectImport p).context = "") ∧
      (p.objective = none → (onProjectImport p).objective = "") ∧
      (p.role = none → (onProjectImport p).role = "") ∧
      (p.expectations = none → (onProjectImport p).expectations = "") ∧
      (p.systemInstruction = none → (onProjectImport p).systemInstruction = "") ∧
      (p.promptBody = none → (onProjectImport p).promptBody = "") ∧
      (p.mediaInstruction = none → (onProjectImport p).mediaInstruction = "") ∧
      (p.aiPlatform = none → (onProjectImport p).aiPlatform = "Gemini") ∧
      (p.outputType = none → (onProjectImport p).outputType = "Image") ∧
      (p.uploadedFile = none → (onProjectImport p).uploadedFile = none) ∧
      (p.previewLanguage = none → (onProjectImport p).previewLanguage = "Vietnamese") ∧
      (p.masterLanguages = none →
        (onProjectImport p).masterLanguages = defaultMasterLanguages) ∧
      (p.temperature = none → (onProjectImport p).temperature = 0.7) ∧
      (p.topP = none → (onProjectImport p).topP = 0.95) ∧
      (p.aspectRatio = none → (onProjectImport p).aspectRatio = "1:1") ∧
      (p.generationState = none →
        (onProjectImport p).generationState = defaultGenerationState)) := by
  constructor
  · intro s
    rfl
  · intro p
    exact ⟨fun h => by simp [onProjectImport, h], fun h => by simp [onProjectImport, h],
      fun h => by simp [onProjectImport, h], fun h => by simp [onProjectImport, h],
      fun h => by simp [onProjectImport, h], fun h => by simp [onProjectImport, h],
      fun h => by simp [onProjectImport, h], fun h => by simp [onProjectImport, h],
      fun h => by simp [onProjectImport, h], fun h => by simp [onProjectImport, h],
      fun h => by simp [onProjectImport, h], fun h => by simp [onProjectImport, h],
      fun h => by simp [onProjectImport, h], fun h => by simp [onProjectImport, h],
      fun h => by simp [onProjectImport, h], fun h => by simp [onProjectImport, h]⟩

/-- C9 witness: a concrete round trip, and two defaults substituted when
importing an all-absent snapshot. -/
theorem project_export_import_roundtrip_witness :
    onProjectImport (exportProject sampleAppState) = sampleAppState ∧
    (onProjectImport emptyProject).aiPlatform = "Gemini" ∧
    (onProjectImport emptyProject).temperature = 0.7 :=
  ⟨project_export_import_roundtrip.1 sampleAppState,
   ((project_export_import_roundtrip.2 emptyProject).2.2.2.2.2.2.2.1) rfl,
   ((project_export_import_roundtrip.2 emptyProject).2.2.2.2.2.2.2.2.2.2.2.2.1) rfl⟩

end PromptMaster
